import Mathlib

/-!
# IncludeOS demo service (`demo_service/service.cpp`)

A shallow embedding of the three pieces of `service.cpp`:

* `HTML_RESPONSE` and `handle_request` (lines 31-82), the request handler;
* the `on_connect` / `on_read` / `on_write` callbacks of `Service::start`
  (lines 117-149), the protocol dispatcher;
* the device block at the top of `Service::start` (lines 92-101).

`std::string` is a Lean `String`, its `size()` the UTF-8 byte count. The hidden
state of the C library (the generator behind `rand()`, the text sent to
`printf`) is passed explicitly in a `World`. The IncludeOS library types used by
the file (`http::Request`, `http::Response`, `net::tcp::Connection`,
`os::machine()`) are not part of `service.cpp`; each is given by a small model
whose doc comment says so.
-/

namespace std

/-- The largest value `rand()` returns (`RAND_MAX`, here `2^31 - 1`). -/
def RAND_MAX : Nat := 2147483647

/-- The state of the generator behind `rand()`, given by the values its coming
calls return, each in `0 .. RAND_MAX`. -/
structure RandState where
  upcoming : Nat → Fin (RAND_MAX + 1)

/-- One call of `rand()`: the value returned and the state left behind. -/
def rand (s : RandState) : Nat × RandState :=
  ((s.upcoming 0).val, ⟨fun n => s.upcoming (n + 1)⟩)

/-- What `stream << std::hex << v` appends for a non-negative `int` `v`:
lower-case hexadecimal digits, no padding (no `setw` / `setfill` is in effect). -/
def hex (v : Nat) : String := String.mk (Nat.toDigits 16 v)

/-- The decimal text of `std::to_string` on a `size_t`. -/
def to_string (n : Nat) : String := String.mk (Nat.toDigits 10 n)

/-- A thrown object caught by `catch (const std::exception& e)`, with `e.what()`. -/
structure exception where
  what : String
deriving DecidableEq

end std

/-- The C library state `service.cpp` touches: the generator behind `rand()` and
the text written by `printf`, oldest first. -/
structure World where
  rand_state : std.RandState
  stdout : List String

/-- What the conversion `%s` of `printf` prints for a string handed over as a
C string (`c_str()`, `data()`, `what()`): its characters up to the first NUL. -/
def c_str (text : String) : String :=
  String.mk (text.data.takeWhile fun c => c ≠ Char.ofNat 0)

/-- A call of `printf` whose formatted text is `text`. -/
def printf (text : String) (w : World) : World :=
  { w with stdout := w.stdout ++ [text] }

namespace http

/-- Modelled from the spec: the request methods of `http::Method`
(`net/http/request.hpp` is not part of `service.cpp`). -/
inductive Method where
  | DELETE | GET | HEAD | POST | PUT | CONNECT | OPTIONS | TRACE | PATCH | INVALID
deriving DecidableEq

/-- Status code `http::OK`, the status of a default-constructed response. -/
def OK : Nat := 200

/-- Status code `http::Not_Found`. -/
def Not_Found : Nat := 404

/-- Modelled from the spec: `http::code_description`, the reason phrase of a
status code, for the two codes the service produces. -/
def code_description (code : Nat) : String :=
  if code = 200 then "OK" else if code = 404 then "Not Found" else ""

namespace header

/-- Field name `http::header::Server`. -/
def Server : String := "Server"
/-- Field name `http::header::Content_Type`. -/
def Content_Type : String := "Content-Type"
/-- Field name `http::header::Content_Length`. -/
def Content_Length : String := "Content-Length"
/-- Field name `http::header::Connection`. -/
def Connection : String := "Connection"

end header

/-- A field name with its letters in lower case. -/
def lower (a : String) : List Char := a.data.map Char.toLower

/-- Field names are compared without regard to letter case. -/
def same_field (a b : String) : Bool := lower a == lower b

/-- Modelled from the spec: the header mapping of a message ("keys unique,
case-insensitive per protocol"), as a list of (name, value) pairs. -/
structure Header where
  fields : List (String × String)
deriving DecidableEq

/-- Replace the value of `field` in a list of pairs, or append the pair. -/
def set_in (field value : String) : List (String × String) → List (String × String)
  | [] => [(field, value)]
  | (k, v) :: rest =>
    if same_field k field then (k, value) :: rest
    else (k, v) :: set_in field value rest

/-- Look `field` up in a list of pairs. -/
def value_in (field : String) : List (String × String) → Option String
  | [] => none
  | (k, v) :: rest => if same_field k field then some v else value_in field rest

/-- Modelled from the spec: `Header::set_field`, which gives `field` the value
`value`, replacing the one it had (keys stay unique). -/
def Header.set_field (h : Header) (field value : String) : Header :=
  ⟨set_in field value h.fields⟩

/-- Modelled from the spec: `Header::value`, the value of `field` when set. -/
def Header.value (h : Header) (field : String) : Option String :=
  value_in field h.fields

/-- Modelled from the spec: `Header::has_field`. -/
def Header.has_field (h : Header) (field : String) : Bool :=
  (h.value field).isSome

/-- Modelled from the spec: the Parsed Request ("structured view of method, URI,
headers, body"); `uri` is the string form `req.uri().to_string()`. -/
structure Request where
  method : Method
  uri : String
  header : Header
  body : String
deriving DecidableEq

/-- The token of a request method on the request line. -/
def method_name : Method → String
  | .DELETE => "DELETE" | .GET => "GET" | .HEAD => "HEAD" | .POST => "POST"
  | .PUT => "PUT" | .CONNECT => "CONNECT" | .OPTIONS => "OPTIONS"
  | .TRACE => "TRACE" | .PATCH => "PATCH" | .INVALID => "<unknown>"

/-- Modelled from the spec: `Request::to_string`, the request line, the header
lines and the body (only used for the log line of `handle_request`). -/
def Request.to_string (req : Request) : String :=
  method_name req.method ++ " " ++ req.uri ++ " HTTP/1.1\r\n"
    ++ String.join (req.header.fields.map fun kv => kv.1 ++ ": " ++ kv.2 ++ "\r\n")
    ++ "\r\n" ++ req.body

/-- Modelled from the spec: the Response ("status code, header mapping, and a
body byte sequence"); the defaults are those of `http::Response res;`. -/
structure Response where
  status_code : Nat := OK
  header : Header := ⟨[]⟩
  body : String := ""
deriving DecidableEq

/-- Modelled from the spec: `res.header().set_field(field, value)`. -/
def Response.set_field (res : Response) (field value : String) : Response :=
  { res with header := res.header.set_field field value }

/-- Modelled from the spec: `Response::add_body`, which gives the response its body. -/
def Response.add_body (res : Response) (body : String) : Response :=
  { res with body := body }

/-- Modelled from the spec: `Response::set_status_code`. -/
def Response.set_status_code (res : Response) (code : Nat) : Response :=
  { res with status_code := code }

end http

/-- The number whose hexadecimal text is written after `color: #`
(line 41: `(color >> 8) | 0x020202`). -/
def heading_colour (color : Nat) : Nat := (color >>> 8) ||| 0x020202

/-- The text `HTML_RESPONSE` puts on its stream once `rand()` has returned
`color` (lines 36-48, one `++` for each `<<`). -/
def html_of (color : Nat) : String :=
  "<!DOCTYPE html><html><head>"
    ++ "<link href='https://fonts.googleapis.com/css?family=Ubuntu:500,300'"
    ++ " rel='stylesheet' type='text/css'>"
    ++ "<title>IncludeOS Demo Service</title></head><body>"
    ++ "<h1 style='color: #" ++ std.hex (heading_colour color)
    ++ "; font-family: \"Arial\", sans-serif'>"
    ++ "Include<span style='font-weight: lighter'>OS</span></h1>"
    ++ "<h2>The C++ Unikernel</h2>"
    ++ "<p>You have successfully booted an IncludeOS TCP service with simple http. "
    ++ "For a more sophisticated example, take a look at "
    ++ "<a href='https://github.com/hioa-cs/IncludeOS/tree/master/examples/acorn'>Acorn</a>.</p>"
    ++ "<footer><hr/>&copy; 2017 IncludeOS </footer></body></html>"

/-- `std::string HTML_RESPONSE()` (lines 31-51): one call of `rand()`, then the page. -/
def HTML_RESPONSE (w : World) : String × World :=
  let (color, rs) := std.rand w.rand_state
  (html_of color, { w with rand_state := rs })

/-- `http::Response handle_request(const http::Request& req)` (lines 53-82). -/
def handle_request (req : http.Request) (w : World) : http.Response × World :=
  let w := printf ("<Service> Request:\n" ++ c_str req.to_string ++ "\n") w
  let res : http.Response := {}
  let res := res.set_field http.header.Server "IncludeOS/0.10"
  let (res, w) :=
    if req.method = http.Method.GET ∧ req.uri = "/" then
      let (html, w) := HTML_RESPONSE w
      let res := res.add_body html
      let res := res.set_field http.header.Content_Type "text/html; charset=UTF-8"
      let res := res.set_field http.header.Content_Length
        (std.to_string res.body.utf8ByteSize)
      (res, w)
    else
      (res.set_status_code http.Not_Found, w)
  (res.set_field http.header.Connection "close", w)

/-- Modelled from the spec: the Connection ("one accepted TCP stream"), reduced
to what the callbacks of `service.cpp` can do to it: `remote` is the text of
`conn->remote().to_string()`, `written` lists the responses passed to
`conn->write`, oldest first, and `closed` is set by `conn->close()`. -/
structure Connection where
  remote : String
  written : List http.Response
  closed : Bool
deriving DecidableEq

/-- Modelled from the spec: `conn->write(res)`, one write issued on the connection. -/
def Connection.write (conn : Connection) (res : http.Response) : Connection :=
  { conn with written := conn.written ++ [res] }

/-- Modelled from the spec: `conn->close()`; no line of `service.cpp` calls it. -/
def Connection.close (conn : Connection) : Connection :=
  { conn with closed := true }

/-- An accepted connection before any callback has run. -/
def Connection.accepted (remote : String) : Connection :=
  { remote := remote, written := [], closed := false }

/-- Modelled from the spec: the constructor `http::Request req{data}` (the
external protocol parser), which either yields the Parsed Request or throws;
what it throws is caught by `catch (const std::exception&)`. -/
abbrev RequestCtor := List UInt8 → Except std.exception http.Request

/-- What a callback has to hand when it runs: the connection it captured and
the C library state. -/
structure State where
  conn : Connection
  world : World

/-- The body of the `on_read` callback (lines 124-145) for one buffer `buf`.
`Except.error` would be an exception leaving the callback; `Except.ok` is a
normal return. -/
def on_read (ctor : RequestCtor) (buf : List UInt8) (s : State) :
    Except std.exception State :=
  let w := printf ("<Service> @on_read: " ++ std.to_string buf.length
    ++ " bytes received.\n") s.world
  -- try
  match ctor buf with
  | .ok req =>
    let (res, w) := handle_request req w
    let w := printf ("<Service> Responding with " ++ std.to_string res.status_code
      ++ " " ++ c_str (http.code_description res.status_code) ++ ".\n") w
    .ok { conn := s.conn.write res, world := w }
  -- catch (const std::exception& e)
  | .error e =>
    .ok { conn := s.conn,
          world := printf ("<Service> Unable to parse request:\n" ++ c_str e.what ++ "\n") w }

/-- The body of the `on_write` callback (lines 146-148). -/
def on_write (written : Nat) (s : State) : State :=
  { s with world := printf ("<Service> @on_write: " ++ std.to_string written
      ++ " bytes written.\n") s.world }

/-- The body of the `on_connect` callback (lines 118-149): one log line; the two
registrations take effect through `deliver` below. -/
def on_connect (conn : Connection) (w : World) : State :=
  { conn := conn,
    world := printf ("<Service> @on_connect: Connection " ++ c_str conn.remote
      ++ " successfully established.\n") w }

/-- What the transport delivers to a connection after `on_connect`: data read
(at most 1024 bytes a time) or data flushed. -/
inductive Event where
  | read (buf : List UInt8)
  | flushed (written : Nat)

/-- One event handed to the callback registered for it. -/
def fire (ctor : RequestCtor) (s : State) : Event → Except std.exception State
  | .read buf => on_read ctor buf s
  | .flushed n => .ok (on_write n s)

/-- A sequence of events delivered in order, stopping at an exception that
leaves a callback. -/
def deliver (ctor : RequestCtor) : State → List Event → Except std.exception State
  | s, [] => .ok s
  | s, e :: rest =>
    match fire ctor s e with
    | .ok s1 => deliver ctor s1 rest
    | .error x => .error x

/-- The life of one accepted connection: `on_connect`, then its events. -/
def serve (ctor : RequestCtor) (remote : String) (events : List Event) (w : World) :
    Except std.exception State :=
  deliver ctor (on_connect (Connection.accepted remote) w) events

/-- The read events of a sequence whose buffer the constructor accepts. -/
def parsed_reads (ctor : RequestCtor) (events : List Event) : Nat :=
  (events.filter fun e =>
    match e with
    | .read buf => (ctor buf).toBool
    | .flushed _ => false).length

/-- `struct my_device` (lines 84-86). -/
structure my_device where
  i : Int := 0
deriving DecidableEq

/-- The free store: the objects allocated so far; an address is a position. -/
structure Heap where
  cells : List my_device
deriving DecidableEq

/-- The object at address `a`. -/
def Heap.read (h : Heap) (a : Nat) : Option my_device := h.cells.get? a

/-- An owning pointer `std::unique_ptr<my_device>`: an address, or empty. -/
abbrev unique_ptr := Option Nat

/-- `std::make_unique<my_device>(v)`: a fresh object holding a copy of `v`. -/
def make_unique (v : my_device) (h : Heap) : unique_ptr × Heap :=
  (some h.cells.length, ⟨h.cells ++ [v]⟩)

/-- Modelled from the spec: the Device Registry behind `os::machine()`
(`hal/machine.hpp` is not part of `service.cpp`): "an arena of slots indexed by
handle"; a slot holds the owning pointer that was moved in. -/
structure Machine where
  parts : List unique_ptr
deriving DecidableEq

/-- Modelled from the spec: `add(value)` "accepts exclusive ownership of a value
... returns a handle", and "the original caller-side owning reference is left
in an empty/ownerless state". Returns the handle, the registry and the caller's
pointer after the move. -/
def Machine.add (m : Machine) (part : unique_ptr) : Nat × Machine × unique_ptr :=
  (m.parts.length, ⟨m.parts ++ [part]⟩, none)

/-- Modelled from the spec: `get(handle)` "returns a mutable reference to the
previously stored value associated with the handle"; the reference is the
address of the stored object. -/
def Machine.get (m : Machine) (handle : Nat) : Option Nat :=
  (m.parts.get? handle).join

/-- What the device block leaves behind when every `Expects` holds. -/
structure Registered where
  heap : Heap
  machine : Machine
  world : World
  dev : unique_ptr
  dev_i : Nat
  device : Nat
  stored_addr : unique_ptr

/-- The device block of `Service::start` (lines 92-101) for a device `dev1`
(`my_device dev1{42}` in the source, whose first `Expects` compares with the
same 42). A failed `Expects` or a dangling reference ends the run with an error. -/
def register_device (dev1 : my_device) (heap : Heap) (m : Machine) (w : World) :
    Except String Registered :=
  let (dev, heap) := make_unique dev1 heap
  let stored_addr := dev
  let w := printf "Made device_ptr, adding to machine\n" w
  let (dev_i, m, dev) := m.add dev
  match m.get dev_i with
  | none => .error "get: no such device"
  | some device =>
    match heap.read device with
    | none => .error "dangling reference"
    | some obj =>
      if obj.i ≠ dev1.i then .error "Expects(device.i == 42)"
      else if some device ≠ stored_addr then .error "Expects(&device == stored_addr)"
      else if dev ≠ none then .error "Expects(dev.get() == nullptr)"
      else .ok { heap := heap, machine := m, world := w, dev := dev, dev_i := dev_i,
                 device := device, stored_addr := stored_addr }

/-! ## Sample inputs -/

/-- The request `GET /`. -/
def get_root : http.Request :=
  { method := http.Method.GET, uri := "/", header := ⟨[]⟩, body := "" }

/-- The request `POST /`. -/
def post_root : http.Request :=
  { method := http.Method.POST, uri := "/", header := ⟨[]⟩, body := "" }

/-- A world whose generator returns 1804289383 and then 846930886 for ever
(the first two values of glibc's `rand()`), with nothing printed yet. -/
def sample_world : World :=
  { rand_state := ⟨fun n => if n = 0 then 1804289383 else 846930886⟩, stdout := [] }

/-- A world whose generator returns 0 first (as musl's `rand()` does). -/
def zero_world : World :=
  { rand_state := ⟨fun _ => 0⟩, stdout := [] }

/-- The bytes of `GET / HTTP/1.1` followed by an empty line. -/
def sample_buffer : List UInt8 :=
  "GET / HTTP/1.1\r\n\r\n".data.map fun c => UInt8.ofNat c.toNat

/-- A request constructor that accepts `sample_buffer` and throws on any other buffer. -/
def sample_ctor : RequestCtor := fun buf =>
  if buf = sample_buffer then .ok get_root else .error ⟨"Invalid request"⟩

/-- A state of an accepted connection with nothing written. -/
def sample_state : State :=
  { conn := Connection.accepted "10.0.0.1:1234", world := sample_world }

/-! ## Lemmas on the header mapping -/

namespace http

theorem same_field_iff (a b : String) : same_field a b = true ↔ lower a = lower b := by
  simp [same_field]

theorem same_field_self (a : String) : same_field a a = true := by
  simp [same_field]

theorem value_in_set_in_self (field value : String) (l : List (String × String)) :
    value_in field (set_in field value l) = some value := by
  induction l with
  | nil => simp [set_in, value_in, same_field_self]
  | cons kv rest ih =>
    obtain ⟨k, v⟩ := kv
    by_cases h : same_field k field = true
    · simp [set_in, value_in, h]
    · simp [set_in, value_in, h, ih]

theorem value_in_set_in_other (field other value : String) (l : List (String × String))
    (hne : same_field field other = false) :
    value_in other (set_in field value l) = value_in other l := by
  have hlow : lower field ≠ lower other := by
    intro h
    rw [(same_field_iff field other).2 h] at hne
    exact Bool.noConfusion hne
  induction l with
  | nil => simp [set_in, value_in, hne]
  | cons kv rest ih =>
    obtain ⟨k, v⟩ := kv
    by_cases h : same_field k field = true
    · have hk : same_field k other = false := by
        cases hko : same_field k other with
        | false => rfl
        | true =>
          exact absurd (((same_field_iff k field).1 h).symm.trans
            ((same_field_iff k other).1 hko)) hlow
      simp [set_in, value_in, h, hk]
    · by_cases hk : same_field k other = true
      · simp [set_in, value_in, h, hk]
      · simp [set_in, value_in, h, hk, ih]

theorem Response.value_set_field_self (res : Response) (field value : String) :
    (res.set_field field value).header.value field = some value := by
  simp [Response.set_field, Header.set_field, Header.value, value_in_set_in_self]

theorem Response.value_set_field_other (res : Response) (field other value : String)
    (hne : same_field field other = false) :
    (res.set_field field value).header.value other = res.header.value other := by
  simp [Response.set_field, Header.set_field, Header.value,
    value_in_set_in_other field other value _ hne]

end http

/-! ## Lemmas on strings -/

theorem utf8ByteSize_go_append (a b : List Char) :
    String.utf8ByteSize.go (a ++ b) = String.utf8ByteSize.go a + String.utf8ByteSize.go b := by
  induction a with
  | nil => simp [String.utf8ByteSize.go]
  | cons c cs ih => simp [String.utf8ByteSize.go, ih]; omega

theorem utf8ByteSize_append (a b : String) :
    (a ++ b).utf8ByteSize = a.utf8ByteSize + b.utf8ByteSize := by
  cases a; cases b
  simp only [String.utf8ByteSize]
  exact utf8ByteSize_go_append _ _

theorem html_of_size_pos (color : Nat) : 0 < (html_of color).utf8ByteSize := by
  have h : 0 < ("<!DOCTYPE html><html><head>" : String).utf8ByteSize := by decide
  simp only [html_of, utf8ByteSize_append]
  omega

theorem html_of_ne_empty (color : Nat) : html_of color ≠ "" := by
  intro h
  have := html_of_size_pos color
  rw [h] at this
  exact absurd this (by decide)

theorem handle_request_root (req : http.Request) (w : World)
    (hm : req.method = http.Method.GET) (hu : req.uri = "/") :
    handle_request req w =
      ((((({} : http.Response).set_field http.header.Server "IncludeOS/0.10").add_body
            (html_of (std.rand w.rand_state).1)).set_field http.header.Content_Type
            "text/html; charset=UTF-8").set_field http.header.Content_Length
            (std.to_string (html_of (std.rand w.rand_state).1).utf8ByteSize)
          |>.set_field http.header.Connection "close",
        { rand_state := (std.rand w.rand_state).2,
          stdout := w.stdout ++ ["<Service> Request:\n" ++ c_str req.to_string ++ "\n"] }) := by
  simp [handle_request, HTML_RESPONSE, hm, hu, printf, http.Response.add_body,
    http.Response.set_field]

theorem handle_request_other (req : http.Request) (w : World)
    (h : ¬ (req.method = http.Method.GET ∧ req.uri = "/")) :
    handle_request req w =
      (((({} : http.Response).set_field http.header.Server "IncludeOS/0.10").set_status_code
          http.Not_Found).set_field http.header.Connection "close",
        printf ("<Service> Request:\n" ++ c_str req.to_string ++ "\n") w) := by
  simp [handle_request, h]

/-! ## Lemmas on the generator -/

/-- Every value `rand()` returns is at most `RAND_MAX`, that is, below `2^31`. -/
theorem rand_le_RAND_MAX (s : std.RandState) :
    (std.rand s).1 ≤ std.RAND_MAX ∧ (std.rand s).1 < 2 ^ 31 := by
  have h := (s.upcoming 0).isLt
  simp only [std.rand, std.RAND_MAX] at *
  omega

/-- The response of `handle_request` is decided by the request and the generator
state alone; the text printed so far plays no part. -/
theorem handle_request_response_stdout (req : http.Request) (w : World) (out : List String) :
    (handle_request req { w with stdout := out }).1 = (handle_request req w).1 := by
  by_cases h : req.method = http.Method.GET ∧ req.uri = "/"
  · rw [handle_request_root req _ h.1 h.2, handle_request_root req w h.1 h.2]
  · rw [handle_request_other req _ h, handle_request_other req w h]

/-! ## The request handler -/

/-- C1: for a request with method GET and URI "/", `handle_request` returns status
200, a non-empty body and `Content-Type: text/html; charset=UTF-8`. -/
theorem handle_request_root_ok (req : http.Request) (w : World)
    (hm : req.method = http.Method.GET) (hu : req.uri = "/") :
    (handle_request req w).1.status_code = 200 ∧
    (handle_request req w).1.body ≠ "" ∧
    0 < (handle_request req w).1.body.utf8ByteSize ∧
    (handle_request req w).1.header.value http.header.Content_Type
      = some "text/html; charset=UTF-8" := by
  rw [handle_request_root req w hm hu]
  refine ⟨rfl, html_of_ne_empty _, html_of_size_pos _, ?_⟩
  rw [http.Response.value_set_field_other _ _ _ _ (by decide),
    http.Response.value_set_field_other _ _ _ _ (by decide),
    http.Response.value_set_field_self]

/-- C1 at the request `GET /` and the sample generator. -/
theorem handle_request_root_ok_witness :
    get_root.method = http.Method.GET ∧ get_root.uri = "/" ∧
    (handle_request get_root sample_world).1.status_code = 200 ∧
    (handle_request get_root sample_world).1.body ≠ "" ∧
    0 < (handle_request get_root sample_world).1.body.utf8ByteSize ∧
    (handle_request get_root sample_world).1.header.value http.header.Content_Type
      = some "text/html; charset=UTF-8" :=
  ⟨rfl, rfl, handle_request_root_ok get_root sample_world rfl rfl⟩

/-- C2: for a request with method GET and URI "/" and any value `rand()` returns,
the body is the page of `HTML_RESPONSE` for that value and `Content-Length` is the
decimal text of the body's byte length. -/
theorem handle_request_content_length (req : http.Request) (w : World)
    (hm : req.method = http.Method.GET) (hu : req.uri = "/") :
    (handle_request req w).1.body = (HTML_RESPONSE w).1 ∧
    (handle_request req w).1.header.value http.header.Content_Length
      = some (std.to_string (handle_request req w).1.body.utf8ByteSize) := by
  rw [handle_request_root req w hm hu]
  refine ⟨rfl, ?_⟩
  rw [http.Response.value_set_field_other _ _ _ _ (by decide),
    http.Response.value_set_field_self]
  rfl

/-- C2 at the request `GET /` and the sample generator. -/
theorem handle_request_content_length_witness :
    get_root.method = http.Method.GET ∧ get_root.uri = "/" ∧
    (handle_request get_root sample_world).1.body = (HTML_RESPONSE sample_world).1 ∧
    (handle_request get_root sample_world).1.header.value http.header.Content_Length
      = some (std.to_string (handle_request get_root sample_world).1.body.utf8ByteSize) :=
  ⟨rfl, rfl, handle_request_content_length get_root sample_world rfl rfl⟩

/-- C3: for a request whose (method, URI) is not (GET, "/"), `handle_request`
returns status 404 and an empty body. -/
theorem handle_request_not_found (req : http.Request) (w : World)
    (h : ¬ (req.method = http.Method.GET ∧ req.uri = "/")) :
    (handle_request req w).1.status_code = 404 ∧ (handle_request req w).1.body = "" := by
  rw [handle_request_other req w h]
  exact ⟨rfl, rfl⟩

/-- C3 at the request `POST /`. -/
theorem handle_request_not_found_witness :
    ¬ (post_root.method = http.Method.GET ∧ post_root.uri = "/") ∧
    (handle_request post_root sample_world).1.status_code = 404 ∧
    (handle_request post_root sample_world).1.body = "" :=
  ⟨by decide, handle_request_not_found post_root sample_world (by decide)⟩

/-- C4: on either branch the response of `handle_request` has the header `Server`
with value "IncludeOS/0.10" and the header `Connection` with value "close". -/
theorem handle_request_server_connection (req : http.Request) (w : World) :
    (handle_request req w).1.header.value http.header.Server = some "IncludeOS/0.10" ∧
    (handle_request req w).1.header.value http.header.Connection = some "close" ∧
    (handle_request req w).1.header.has_field http.header.Server = true ∧
    (handle_request req w).1.header.has_field http.header.Connection = true := by
  have key : (handle_request req w).1.header.value http.header.Server = some "IncludeOS/0.10" ∧
      (handle_request req w).1.header.value http.header.Connection = some "close" := by
    by_cases h : req.method = http.Method.GET ∧ req.uri = "/"
    · rw [handle_request_root req w h.1 h.2]
      refine ⟨?_, http.Response.value_set_field_self _ _ _⟩
      rw [http.Response.value_set_field_other _ _ _ _ (by decide),
        http.Response.value_set_field_other _ _ _ _ (by decide),
        http.Response.value_set_field_other _ _ _ _ (by decide)]
      exact http.Response.value_set_field_self _ _ _
    · rw [handle_request_other req w h]
      refine ⟨?_, http.Response.value_set_field_self _ _ _⟩
      rw [http.Response.value_set_field_other _ _ _ _ (by decide)]
      exact http.Response.value_set_field_self _ _ _
  refine ⟨key.1, key.2, ?_, ?_⟩
  · simp [http.Header.has_field, key.1]
  · simp [http.Header.has_field, key.2]

/-! ## The protocol dispatcher -/

theorem on_read_error (ctor : RequestCtor) (buf : List UInt8) (s : State) (e : std.exception)
    (h : ctor buf = .error e) :
    on_read ctor buf s = .ok
      { conn := s.conn,
        world := printf ("<Service> Unable to parse request:\n" ++ c_str e.what ++ "\n")
          (printf ("<Service> @on_read: " ++ std.to_string buf.length
            ++ " bytes received.\n") s.world) } := by
  simp [on_read, h]

theorem on_read_ok (ctor : RequestCtor) (buf : List UInt8) (s : State) (req : http.Request)
    (h : ctor buf = .ok req) :
    ∃ w, on_read ctor buf s = .ok { conn := s.conn.write (handle_request req s.world).1,
                                    world := w } := by
  have hres := handle_request_response_stdout req s.world
    (s.world.stdout ++ ["<Service> @on_read: " ++ std.to_string buf.length
      ++ " bytes received.\n"])
  simp only [on_read, h, printf]
  rw [← hres]
  exact ⟨_, rfl⟩

/-- C5: when constructing the request from the buffer throws, the `on_read`
callback returns normally with the connection untouched: nothing is written to it
and it is not closed. -/
theorem on_read_parse_failure (ctor : RequestCtor) (buf : List UInt8) (s : State)
    (e : std.exception) (h : ctor buf = .error e) :
    ∃ s1, on_read ctor buf s = .ok s1 ∧ s1.conn = s.conn ∧
      s1.conn.written = s.conn.written ∧ s1.conn.closed = s.conn.closed := by
  rw [on_read_error ctor buf s e h]
  exact ⟨_, rfl, rfl, rfl, rfl⟩

/-- C5 at an empty buffer, which the sample constructor rejects. -/
theorem on_read_parse_failure_witness :
    sample_ctor [] = .error ⟨"Invalid request"⟩ ∧
    ∃ s1, on_read sample_ctor [] sample_state = .ok s1 ∧ s1.conn = sample_state.conn ∧
      s1.conn.written = sample_state.conn.written ∧
      s1.conn.closed = sample_state.conn.closed :=
  ⟨rfl, on_read_parse_failure sample_ctor [] sample_state ⟨"Invalid request"⟩ rfl⟩

/-- C9: when the buffer of one firing of `on_read` parses into `req`, the callback
returns normally having issued exactly one write, of the response
`handle_request req`; the request is the one constructed from this buffer alone. -/
theorem on_read_parse_success (ctor : RequestCtor) (buf : List UInt8) (s : State)
    (req : http.Request) (h : ctor buf = .ok req) :
    ∃ s1, on_read ctor buf s = .ok s1 ∧
      s1.conn.written = s.conn.written ++ [(handle_request req s.world).1] ∧
      s1.conn.written.length = s.conn.written.length + 1 ∧
      s1.conn.closed = s.conn.closed := by
  obtain ⟨w, hw⟩ := on_read_ok ctor buf s req h
  rw [hw]
  exact ⟨_, rfl, rfl, by simp [Connection.write], rfl⟩

/-- C9 at the sample buffer, which the sample constructor accepts. -/
theorem on_read_parse_success_witness :
    sample_ctor sample_buffer = .ok get_root ∧
    ∃ s1, on_read sample_ctor sample_buffer sample_state = .ok s1 ∧
      s1.conn.written = sample_state.conn.written
        ++ [(handle_request get_root sample_state.world).1] ∧
      s1.conn.written.length = sample_state.conn.written.length + 1 ∧
      s1.conn.closed = sample_state.conn.closed :=
  ⟨rfl, on_read_parse_success sample_ctor sample_buffer sample_state get_root rfl⟩

theorem fire_written (ctor : RequestCtor) (s : State) (e : Event) :
    ∃ s1, fire ctor s e = .ok s1 ∧
      s1.conn.written.length = s.conn.written.length + parsed_reads ctor [e] ∧
      s1.conn.closed = s.conn.closed := by
  cases e with
  | read buf =>
    cases h : ctor buf with
    | error x =>
      refine ⟨_, on_read_error ctor buf s x h, ?_, rfl⟩
      simp [parsed_reads, h, Except.toBool]
    | ok req =>
      obtain ⟨w, hw⟩ := on_read_ok ctor buf s req h
      refine ⟨_, hw, ?_, rfl⟩
      simp [parsed_reads, h, Except.toBool, Connection.write]
  | flushed n => exact ⟨_, rfl, by simp [parsed_reads, on_write], rfl⟩

theorem parsed_reads_cons (ctor : RequestCtor) (e : Event) (rest : List Event) :
    parsed_reads ctor (e :: rest) = parsed_reads ctor [e] + parsed_reads ctor rest := by
  simp only [parsed_reads, List.filter_cons]
  split
  · simp; omega
  · simp

theorem deliver_written (ctor : RequestCtor) (events : List Event) (s : State) :
    ∃ s1, deliver ctor s events = .ok s1 ∧
      s1.conn.written.length = s.conn.written.length + parsed_reads ctor events ∧
      s1.conn.closed = s.conn.closed := by
  induction events generalizing s with
  | nil => exact ⟨s, rfl, by simp [parsed_reads], rfl⟩
  | cons e rest ih =>
    obtain ⟨s1, h1, hlen1, hc1⟩ := fire_written ctor s e
    obtain ⟨s2, h2, hlen2, hc2⟩ := ih s1
    refine ⟨s2, ?_, ?_, hc2.trans hc1⟩
    · simp [deliver, h1, h2]
    · rw [hlen2, hlen1, parsed_reads_cons ctor e rest]; omega

/-- C7, as the code has it: a connection is written to once for each read event
whose buffer parses, and not otherwise; over the life of one accepted connection
the number of writes is the number of such read events, hence at most the number
of events delivered, and no callback closes the connection. -/
theorem serve_writes_once_per_parsed_read (ctor : RequestCtor) (remote : String)
    (events : List Event) (w : World) :
    ∃ s, serve ctor remote events w = .ok s ∧
      s.conn.written.length = parsed_reads ctor events ∧
      parsed_reads ctor events ≤ events.length ∧
      s.conn.closed = false := by
  obtain ⟨s, hs, hlen, hc⟩ :=
    deliver_written ctor events (on_connect (Connection.accepted remote) w)
  refine ⟨s, hs, ?_, List.length_filter_le _ _, ?_⟩
  · simpa [on_connect, Connection.accepted] using hlen
  · simpa [on_connect, Connection.accepted] using hc

/-- C7, as stated, fails: one accepted connection that receives two read events,
each carrying a whole `GET /` request, is written to twice. -/
theorem serve_two_requests_two_writes :
    ∃ s, serve sample_ctor "10.0.0.1:1234"
        [Event.read sample_buffer, Event.read sample_buffer] sample_world = .ok s ∧
      s.conn.written.length = 2 ∧ ¬ (s.conn.written.length ≤ 1) := by
  obtain ⟨s, hs, hlen, _⟩ := deliver_written sample_ctor
    [Event.read sample_buffer, Event.read sample_buffer]
    (on_connect (Connection.accepted "10.0.0.1:1234") sample_world)
  have hp : parsed_reads sample_ctor
      [Event.read sample_buffer, Event.read sample_buffer] = 2 := by decide
  rw [hp] at hlen
  have hlen2 : s.conn.written.length = 2 := by
    simpa [on_connect, Connection.accepted] using hlen
  exact ⟨s, hs, hlen2, by omega⟩

/-! ## Dependence on the generator -/

/-- Two pages are equal only when their colour texts are. -/
theorem html_of_colour_text (a b : Nat) (h : html_of a = html_of b) :
    std.hex (heading_colour a) = std.hex (heading_colour b) := by
  have hd := congrArg String.data h
  simp only [html_of, String.data_append, List.append_assoc, List.append_right_inj,
    List.append_left_inj] at hd
  exact String.ext hd

/-- C8, as stated, fails: two invocations of `handle_request` on the same request
`GET /`, one after the other, return responses with different bodies, and the
first leaves the generator behind `rand()` in another state than it found it. -/
theorem handle_request_twice_differs :
    (handle_request get_root sample_world).1.body
      ≠ (handle_request get_root (handle_request get_root sample_world).2).1.body ∧
    (handle_request get_root sample_world).1
      ≠ (handle_request get_root (handle_request get_root sample_world).2).1 ∧
    (handle_request get_root sample_world).2.rand_state.upcoming 0
      ≠ sample_world.rand_state.upcoming 0 := by
  have hb : (handle_request get_root sample_world).1.body
      ≠ (handle_request get_root (handle_request get_root sample_world).2).1.body := by
    rw [handle_request_root get_root _ rfl rfl, handle_request_root get_root _ rfl rfl]
    intro h
    exact absurd (html_of_colour_text _ _ h) (by decide)
  refine ⟨hb, fun h => hb (congrArg http.Response.body h), ?_⟩
  rw [handle_request_root get_root _ rfl rfl]
  decide

/-- C8, as the code has it: off the `GET /` branch `handle_request` is a function
of the request's method and URI alone and leaves the generator as found; on the
`GET /` branch the response is a function of the value `rand()` returns and the
generator advances by one call; the only other lasting effect is one line of log
text. -/
theorem handle_request_function_of (req1 req2 : http.Request) (w1 w2 : World)
    (hm : req1.method = req2.method) (hu : req1.uri = req2.uri)
    (hr : req1.method = http.Method.GET ∧ req1.uri = "/" →
      (std.rand w1.rand_state).1 = (std.rand w2.rand_state).1) :
    (handle_request req1 w1).1 = (handle_request req2 w2).1 ∧
    (handle_request req1 w1).2.rand_state =
      (if req1.method = http.Method.GET ∧ req1.uri = "/" then (std.rand w1.rand_state).2
       else w1.rand_state) ∧
    (handle_request req1 w1).2.stdout =
      w1.stdout ++ ["<Service> Request:\n" ++ c_str req1.to_string ++ "\n"] := by
  by_cases h : req1.method = http.Method.GET ∧ req1.uri = "/"
  · have h2 : req2.method = http.Method.GET ∧ req2.uri = "/" := ⟨hm ▸ h.1, hu ▸ h.2⟩
    rw [handle_request_root req1 w1 h.1 h.2, handle_request_root req2 w2 h2.1 h2.2, hr h]
    simp [h]
  · have h2 : ¬ (req2.method = http.Method.GET ∧ req2.uri = "/") := by
      rw [← hm, ← hu]; exact h
    rw [handle_request_other req1 w1 h, handle_request_other req2 w2 h2]
    simp [h, printf]

/-- C8, as the code has it, at `POST /` under two generators that differ, and at
`GET /` under two worlds whose generators return the same value. -/
theorem handle_request_function_of_witness :
    (post_root.method = post_root.method ∧ post_root.uri = post_root.uri ∧
      (post_root.method = http.Method.GET ∧ post_root.uri = "/" →
        (std.rand zero_world.rand_state).1 = (std.rand sample_world.rand_state).1) ∧
      (handle_request post_root zero_world).1 = (handle_request post_root sample_world).1 ∧
      (handle_request post_root zero_world).2.rand_state =
        (if post_root.method = http.Method.GET ∧ post_root.uri = "/"
         then (std.rand zero_world.rand_state).2 else zero_world.rand_state) ∧
      (handle_request post_root zero_world).2.stdout =
        zero_world.stdout ++ ["<Service> Request:\n" ++ c_str post_root.to_string ++ "\n"]) ∧
    (get_root.method = get_root.method ∧ get_root.uri = get_root.uri ∧
      (get_root.method = http.Method.GET ∧ get_root.uri = "/" →
        (std.rand zero_world.rand_state).1
          = (std.rand { zero_world with stdout := ["boot"] }.rand_state).1) ∧
      (handle_request get_root zero_world).1
        = (handle_request get_root { zero_world with stdout := ["boot"] }).1 ∧
      (handle_request get_root zero_world).2.rand_state =
        (if get_root.method = http.Method.GET ∧ get_root.uri = "/"
         then (std.rand zero_world.rand_state).2 else zero_world.rand_state) ∧
      (handle_request get_root zero_world).2.stdout =
        zero_world.stdout ++ ["<Service> Request:\n" ++ c_str get_root.to_string ++ "\n"]) :=
  ⟨⟨rfl, rfl, fun h => absurd h.1 (by decide),
      handle_request_function_of post_root post_root zero_world sample_world rfl rfl
        (fun h => absurd h.1 (by decide))⟩,
    ⟨rfl, rfl, fun _ => rfl,
      handle_request_function_of get_root get_root zero_world
        { zero_world with stdout := ["boot"] } rfl rfl (fun _ => rfl)⟩⟩

/-! ## The device block -/

/-- C6: for every device value `dev1`, the device block passes its three `Expects`:
after `add(std::move(dev))` the reference returned by `get` designates an object
equal to `dev1`, at the address the caller's pointer held before the call, and the
caller's pointer is empty. -/
theorem register_device_ok (dev1 : my_device) (heap : Heap) (m : Machine) (w : World) :
    ∃ r, register_device dev1 heap m w = .ok r ∧
      r.machine.get r.dev_i = some r.device ∧
      r.heap.read r.device = some dev1 ∧
      (make_unique dev1 heap).1 = some r.device ∧
      r.stored_addr = some r.device ∧
      r.dev = none := by
  have hget : (⟨m.parts ++ [some heap.cells.length]⟩ : Machine).get m.parts.length
      = some heap.cells.length := by
    simp [Machine.get]
  have hread : (⟨heap.cells ++ [dev1]⟩ : Heap).read heap.cells.length = some dev1 := by
    simp [Heap.read]
  refine ⟨{ heap := ⟨heap.cells ++ [dev1]⟩, machine := ⟨m.parts ++ [some heap.cells.length]⟩,
            world := printf "Made device_ptr, adding to machine\n" w, dev := none,
            dev_i := m.parts.length, device := heap.cells.length,
            stored_addr := some heap.cells.length }, ?_, hget, hread, rfl, rfl, rfl⟩
  simp [register_device, make_unique, Machine.add, hget, hread]

/-! ## The heading colour -/

theorem le_or_left (x y : Nat) : x ≤ x ||| y :=
  Nat.le_of_testBit fun i h => by simp [Nat.testBit_or, h]

theorem le_or_right (x y : Nat) : y ≤ x ||| y :=
  Nat.le_of_testBit fun i h => by simp [Nat.testBit_or, h]

theorem heading_colour_bounds (c : Nat) (hc : c < 2 ^ 31) :
    0x020202 ≤ heading_colour c ∧ heading_colour c ≤ 0x7FFFFF := by
  unfold heading_colour
  constructor
  · exact le_or_right _ _
  · have h1 : c >>> 8 < 2 ^ 23 := by
      rw [Nat.shiftRight_eq_div_pow]
      omega
    have h2 : (0x020202 : Nat) < 2 ^ 23 := by decide
    have := Nat.or_lt_two_pow h1 h2
    omega

theorem heading_colour_bits (c : Nat) :
    (heading_colour c).testBit 1 = true ∧ (heading_colour c).testBit 9 = true ∧
      (heading_colour c).testBit 17 = true := by
  unfold heading_colour
  have b1 : Nat.testBit 0x020202 1 = true := by decide
  have b9 : Nat.testBit 0x020202 9 = true := by decide
  have b17 : Nat.testBit 0x020202 17 = true := by decide
  simp only [Nat.testBit_or, b1, b9, b17, Bool.or_true, and_self]

theorem toDigits_length_five (v : Nat) (h1 : 16 ^ 4 ≤ v) (h2 : v < 16 ^ 5) :
    (Nat.toDigits 16 v).length = 5 := by
  obtain ⟨k, rfl⟩ : ∃ k, v = k + 5 := ⟨v - 5, by omega⟩
  have e1 : (k + 5) / 16 ≠ 0 := by omega
  have e2 : (k + 5) / 16 / 16 ≠ 0 := by omega
  have e3 : (k + 5) / 16 / 16 / 16 ≠ 0 := by omega
  have e4 : (k + 5) / 16 / 16 / 16 / 16 ≠ 0 := by omega
  have e5 : (k + 5) / 16 / 16 / 16 / 16 / 16 = 0 := by omega
  simp [Nat.toDigits, Nat.toDigitsCore, e1, e2, e3, e4, e5]

theorem toDigits_length_six (v : Nat) (h1 : 16 ^ 5 ≤ v) (h2 : v < 16 ^ 6) :
    (Nat.toDigits 16 v).length = 6 := by
  obtain ⟨k, rfl⟩ : ∃ k, v = k + 6 := ⟨v - 6, by omega⟩
  have e1 : (k + 6) / 16 ≠ 0 := by omega
  have e2 : (k + 6) / 16 / 16 ≠ 0 := by omega
  have e3 : (k + 6) / 16 / 16 / 16 ≠ 0 := by omega
  have e4 : (k + 6) / 16 / 16 / 16 / 16 ≠ 0 := by omega
  have e5 : (k + 6) / 16 / 16 / 16 / 16 / 16 ≠ 0 := by omega
  have e6 : (k + 6) / 16 / 16 / 16 / 16 / 16 / 16 = 0 := by omega
  simp [Nat.toDigits, Nat.toDigitsCore, e1, e2, e3, e4, e5, e6]

/-- The colour text has six digits exactly when `rand()` returned at least `2^28`;
below that it has five. -/
theorem colour_text_length (c : Nat) (hc : c < 2 ^ 31) :
    (std.hex (heading_colour c)).length = if c < 2 ^ 28 then 5 else 6 := by
  have hb := heading_colour_bounds c hc
  simp only [std.hex, String.length]
  split
  · rename_i hlt
    apply toDigits_length_five
    · omega
    · unfold heading_colour
      have h1 : c >>> 8 < 2 ^ 20 := by
        rw [Nat.shiftRight_eq_div_pow]
        omega
      have h2 : (0x020202 : Nat) < 2 ^ 20 := by decide
      have := Nat.or_lt_two_pow h1 h2
      omega
  · rename_i hge
    apply toDigits_length_six
    · unfold heading_colour
      have h1 : 2 ^ 20 ≤ c >>> 8 := by
        rw [Nat.shiftRight_eq_div_pow]
        omega
      have := le_or_left (c >>> 8) 0x020202
      omega
    · omega

/-- C10 at `rand() = 0`: the colour text is `20202`, five hexadecimal digits, and
the page carries the style `color: #20202`, which is not of the form `#RRGGBB`. -/
theorem HTML_RESPONSE_colour_five_digits :
    (std.rand zero_world.rand_state).1 = 0 ∧
    heading_colour 0 = 0x020202 ∧
    std.hex (heading_colour 0) = "20202" ∧
    (std.hex (heading_colour 0)).length = 5 ∧
    (HTML_RESPONSE zero_world).1 =
      "<!DOCTYPE html><html><head>"
        ++ "<link href='https://fonts.googleapis.com/css?family=Ubuntu:500,300'"
        ++ " rel='stylesheet' type='text/css'>"
        ++ "<title>IncludeOS Demo Service</title></head><body>"
        ++ "<h1 style='color: #" ++ "20202"
        ++ "; font-family: \"Arial\", sans-serif'>"
        ++ "Include<span style='font-weight: lighter'>OS</span></h1>"
        ++ "<h2>The C++ Unikernel</h2>"
        ++ "<p>You have successfully booted an IncludeOS TCP service with simple http. "
        ++ "For a more sophisticated example, take a look at "
        ++ "<a href='https://github.com/hioa-cs/IncludeOS/tree/master/examples/acorn'>Acorn</a>.</p>"
        ++ "<footer><hr/>&copy; 2017 IncludeOS </footer></body></html>" := by
  have h : std.hex (heading_colour 0) = "20202" := by decide
  refine ⟨rfl, by decide, h, by decide, ?_⟩
  show html_of 0 = _
  unfold html_of
  rw [h]
